import Mathlib

/-!
Shallow embedding of the filter logic of `src/app.py` (a Shiny penguin
dashboard).  The only authored computation in the repository is the reactive
calculation `filtered_data` (src/app.py lines 101-112), which subsets the
module-level `penguins_df` with three successive boolean masks:

  filtered_df = penguins_df[penguins_df["species"].isin(selected_species_list)]
  filtered_df = filtered_df[filtered_df["island"].isin(selected_island_list)]
  mass_min, mass_max = body_mass_range
  filtered_df = filtered_df[(filtered_df["body_mass_g"] >= mass_min) &
                            (filtered_df["body_mass_g"] <= mass_max)]

A pandas DataFrame is embedded as an ordered `List` of rows; a boolean-mask
selection `df[mask]` is `List.filter`.  A possibly-missing float column is
`Option Rat`; pandas comparisons `NaN >= x` and `NaN <= x` are both `False`,
so the missing case of each mask is `false`.  The slider bounds and the mass
values are rationals (no claim depends on float rounding; only the order on
the values matters for these masks).
-/

namespace App

/-- One row of `penguins_df`: the columns read anywhere in the app.
Numeric measurements may be missing (`none` embeds pandas `NaN`). -/
structure Record where
  species : String
  island : String
  bill_length_mm : Option Rat
  bill_depth_mm : Option Rat
  flipper_length_mm : Option Rat
  body_mass_g : Option Rat
deriving DecidableEq, Repr

/-- The filter inputs read by `filtered_data`: the two checkbox groups
`selected_species_list` / `selected_island_list` and the two-ended slider
`body_mass_range` destructured as `mass_min, mass_max`. -/
structure Criteria where
  selected_species_list : List String
  selected_island_list : List String
  mass_min : Rat
  mass_max : Rat
deriving DecidableEq, Repr

/-- The mask `penguins_df["species"].isin(input.selected_species_list())`
evaluated at one row. -/
def speciesMask (c : Criteria) (r : Record) : Bool :=
  c.selected_species_list.contains r.species

/-- The mask `filtered_df["island"].isin(input.selected_island_list())`
evaluated at one row. -/
def islandMask (c : Criteria) (r : Record) : Bool :=
  c.selected_island_list.contains r.island

/-- The mask `filtered_df["body_mass_g"] >= mass_min` at one row;
a missing value compares `False` in pandas. -/
def massGeMask (lo : Rat) (r : Record) : Bool :=
  match r.body_mass_g with
  | none => false
  | some v => decide (lo ≤ v)

/-- The mask `filtered_df["body_mass_g"] <= mass_max` at one row;
a missing value compares `False` in pandas. -/
def massLeMask (hi : Rat) (r : Record) : Bool :=
  match r.body_mass_g with
  | none => false
  | some v => decide (v ≤ hi)

/-- Embedding of the reactive calc `filtered_data` (src/app.py:101-112):
three successive boolean-mask selections on `penguins_df`. -/
def filtered_data (penguins_df : List Record) (c : Criteria) : List Record :=
  let filtered_df := penguins_df.filter (speciesMask c)
  let filtered_df := filtered_df.filter (islandMask c)
  filtered_df.filter (fun r => massGeMask c.mass_min r && massLeMask c.mass_max r)

/-- The body of `filtered_data` contains no assignment to the module-level
`penguins_df`; as a state transformer on the loaded dataset the call returns
the fresh filtered frame together with the (unchanged) dataset. -/
def filtered_data_call (penguins_df : List Record) (c : Criteria) :
    List Record × List Record :=
  (filtered_data penguins_df c, penguins_df)

/-! ### Basic characterisations -/

theorem mem_filtered_data {df : List Record} {c : Criteria} {r : Record} :
    r ∈ filtered_data df c ↔
      r ∈ df ∧ speciesMask c r = true ∧ islandMask c r = true ∧
        massGeMask c.mass_min r = true ∧ massLeMask c.mass_max r = true := by
  simp only [filtered_data, List.mem_filter, Bool.and_eq_true]
  tauto

theorem filtered_data_eq_filter (df : List Record) (c : Criteria) :
    filtered_data df c =
      df.filter (fun r => speciesMask c r && islandMask c r &&
        (massGeMask c.mass_min r && massLeMask c.mass_max r)) := by
  simp [filtered_data, List.filter_filter, Bool.and_assoc, Bool.and_comm,
    Bool.and_left_comm]

theorem contains_iff_mem {l : List String} {a : String} :
    l.contains a = true ↔ a ∈ l := by
  simp [List.contains]

theorem filtered_data_sublist (df : List Record) (c : Criteria) :
    (filtered_data df c).Sublist df := by
  rw [filtered_data_eq_filter]
  exact List.filter_sublist df

/-! ### Claims -/

/-- C1: every record in the output of `filtered_data` satisfies all three
filter predicates simultaneously: its species is in the selected species
list, its island is in the selected island list, and its body mass is
present and lies in the inclusive slider range. -/
theorem C1_result_satisfies_all_predicates
    (df : List Record) (c : Criteria) (r : Record)
    (h : r ∈ filtered_data df c) :
    r.species ∈ c.selected_species_list ∧
      r.island ∈ c.selected_island_list ∧
      ∃ v, r.body_mass_g = some v ∧ c.mass_min ≤ v ∧ v ≤ c.mass_max := by
  obtain ⟨-, hs, hi, hge, hle⟩ := mem_filtered_data.mp h
  refine ⟨contains_iff_mem.mp hs, contains_iff_mem.mp hi, ?_⟩
  unfold massGeMask at hge
  unfold massLeMask at hle
  cases hm : r.body_mass_g with
  | none => rw [hm] at hge; exact absurd hge (by simp)
  | some v =>
    rw [hm] at hge hle
    exact ⟨v, rfl, of_decide_eq_true hge, of_decide_eq_true hle⟩

/-- C2: the output of `filtered_data` is a sublist of the input dataset:
only records drawn from the dataset, each occurring at most as often as in
the dataset, in the original relative order. -/
theorem C2_result_is_subsequence (df : List Record) (c : Criteria) :
    (filtered_data df c).Sublist df ∧
      ∀ r : Record, (filtered_data df c).count r ≤ df.count r :=
  ⟨filtered_data_sublist df c,
    fun r => (filtered_data_sublist df c).count_le r⟩

/-- C3: a record whose body mass is missing (pandas `NaN`, embedded as
`none`) never appears in the output of `filtered_data`, for any criteria. -/
theorem C3_missing_mass_excluded
    (df : List Record) (c : Criteria) (r : Record)
    (hm : r.body_mass_g = none) :
    r ∉ filtered_data df c := by
  intro h
  obtain ⟨-, -, -, hge, -⟩ := mem_filtered_data.mp h
  rw [massGeMask, hm] at hge
  exact absurd hge (by simp)

/-- C4: if the selected species list or the selected island list is empty,
`filtered_data` returns the empty list. -/
theorem C4_empty_subset_gives_empty_result
    (df : List Record) (c : Criteria)
    (h : c.selected_species_list = [] ∨ c.selected_island_list = []) :
    filtered_data df c = [] := by
  rcases h with h | h <;>
    simp [filtered_data, speciesMask, islandMask, h]

/-- C5: `filtered_data` is total and, when no record of the dataset passes
all three masks, returns the explicitly empty list as a value. -/
theorem C5_no_match_gives_empty_value
    (df : List Record) (c : Criteria)
    (h : ∀ r ∈ df, ¬(speciesMask c r = true ∧ islandMask c r = true ∧
      massGeMask c.mass_min r = true ∧ massLeMask c.mass_max r = true)) :
    filtered_data df c = [] := by
  rw [filtered_data_eq_filter]
  refine List.filter_eq_nil_iff.mpr fun r hr => ?_
  have := h r hr
  simp only [Bool.and_eq_true]
  tauto

/-- C6: `filtered_data` is a pure function of (dataset, criteria): two
invocations on identical inputs give identical results, and re-filtering an
already-filtered dataset with the same criteria changes nothing. -/
theorem C6_deterministic_and_idempotent (df : List Record) (c : Criteria) :
    filtered_data df c = filtered_data df c ∧
      filtered_data (filtered_data df c) c = filtered_data df c := by
  refine ⟨rfl, ?_⟩
  rw [filtered_data_eq_filter, filtered_data_eq_filter]
  simp [List.filter_filter]

/-- C7: invoking the filter leaves the source dataset unchanged (the state
component of `filtered_data_call` is exactly the input dataset) and the
returned frame is a fresh subsequence of it, not a mutation. -/
theorem C7_source_dataset_unchanged (df : List Record) (c : Criteria) :
    (filtered_data_call df c).2 = df ∧
      (filtered_data_call df c).1 = filtered_data df c ∧
      (filtered_data_call df c).1.Sublist df :=
  ⟨rfl, rfl, filtered_data_sublist df c⟩

/-! ### Concrete example dataset (spec §8) -/

def adelieBiscoe : Record := ⟨"Adelie", "Biscoe", none, none, none, some 3000⟩

def gentooDream : Record := ⟨"Gentoo", "Dream", none, none, none, some 5200⟩

def chinstrapTorgersen : Record :=
  ⟨"Chinstrap", "Torgersen", none, none, none, some 3600⟩

def exampleDf : List Record := [adelieBiscoe, gentooDream, chinstrapTorgersen]

def exampleCriteria : Criteria :=
  ⟨["Adelie", "Gentoo"], ["Biscoe", "Dream"], 2500, 5500⟩

def exampleCriteriaHigh : Criteria :=
  ⟨["Adelie", "Gentoo"], ["Biscoe", "Dream"], 6000, 6100⟩

/-- C8: on the concrete 3-record dataset, criteria
{species {Adelie, Gentoo}, island {Biscoe, Dream}, mass [2500, 5500]} keep
exactly the first two records in order, and with mass range [6000, 6100]
the result is empty. -/
theorem C8_concrete_example :
    filtered_data exampleDf exampleCriteria = [adelieBiscoe, gentooDream] ∧
      filtered_data exampleDf exampleCriteriaHigh = [] := by
  constructor <;> rfl

/-- C9: an inverted slider range (mass_min strictly above mass_max) makes
`filtered_data` return the empty list: no mass passes both comparisons. -/
theorem C9_inverted_range_gives_empty
    (df : List Record) (c : Criteria) (h : c.mass_max < c.mass_min) :
    filtered_data df c = [] := by
  rw [filtered_data_eq_filter]
  refine List.filter_eq_nil_iff.mpr fun r _ => ?_
  simp only [Bool.and_eq_true, massGeMask, massLeMask]
  rintro ⟨-, hge, hle⟩
  cases hm : r.body_mass_g with
  | none => rw [hm] at hge; exact absurd hge (by simp)
  | some v =>
    rw [hm] at hge hle
    have h1 := of_decide_eq_true hge
    have h2 := of_decide_eq_true hle
    exact absurd (le_trans h1 h2) (not_le.mpr h)

theorem massGeMask_mono {lo lo' : Rat} (h : lo' ≤ lo) {r : Record}
    (hr : massGeMask lo r = true) : massGeMask lo' r = true := by
  unfold massGeMask at hr ⊢
  cases hm : r.body_mass_g with
  | none => rw [hm] at hr; exact absurd hr (by simp)
  | some v =>
    rw [hm] at hr
    exact decide_eq_true (le_trans h (of_decide_eq_true hr))

theorem massLeMask_mono {hi hi' : Rat} (h : hi ≤ hi') {r : Record}
    (hr : massLeMask hi r = true) : massLeMask hi' r = true := by
  unfold massLeMask at hr ⊢
  cases hm : r.body_mass_g with
  | none => rw [hm] at hr; exact absurd hr (by simp)
  | some v =>
    rw [hm] at hr
    exact decide_eq_true (le_trans (of_decide_eq_true hr) h)

/-- C10: `filtered_data` is monotone in the criteria: widening the species
list, the island list and the mass interval can only keep more records, and
the smaller result is a sublist of the larger one. -/
theorem C10_monotone_in_criteria
    (df : List Record) (c₁ c₂ : Criteria)
    (hs : c₁.selected_species_list ⊆ c₂.selected_species_list)
    (hi : c₁.selected_island_list ⊆ c₂.selected_island_list)
    (hlo : c₂.mass_min ≤ c₁.mass_min) (hhi : c₁.mass_max ≤ c₂.mass_max) :
    (filtered_data df c₁).Sublist (filtered_data df c₂) := by
  rw [filtered_data_eq_filter, filtered_data_eq_filter]
  refine List.monotone_filter_right df fun r hr => ?_
  simp only [Bool.and_eq_true] at hr ⊢
  obtain ⟨⟨hsp, hisl⟩, hge, hle⟩ := hr
  exact ⟨⟨contains_iff_mem.mpr (hs (contains_iff_mem.mp hsp)),
    contains_iff_mem.mpr (hi (contains_iff_mem.mp hisl))⟩,
    massGeMask_mono hlo hge, massLeMask_mono hhi hle⟩

/-! ### Witnesses: the hypothesised claims instantiated on concrete data -/

def missingMassRec : Record := ⟨"Adelie", "Biscoe", none, none, none, none⟩

def emptySpeciesCriteria : Criteria := ⟨[], ["Biscoe", "Dream"], 2500, 5500⟩

def noMatchCriteria : Criteria :=
  ⟨["Adelie", "Gentoo", "Chinstrap"], ["Biscoe", "Dream", "Torgersen"],
    9000, 9999⟩

def invertedCriteria : Criteria :=
  ⟨["Adelie", "Gentoo", "Chinstrap"], ["Biscoe", "Dream", "Torgersen"],
    5000, 2000⟩

def narrowCriteria : Criteria := ⟨["Adelie"], ["Biscoe"], 2800, 5000⟩

theorem C1_result_satisfies_all_predicates_witness :
    adelieBiscoe ∈ filtered_data exampleDf exampleCriteria ∧
      (adelieBiscoe.species ∈ exampleCriteria.selected_species_list ∧
        adelieBiscoe.island ∈ exampleCriteria.selected_island_list ∧
        ∃ v, adelieBiscoe.body_mass_g = some v ∧
          exampleCriteria.mass_min ≤ v ∧ v ≤ exampleCriteria.mass_max) :=
  ⟨by decide,
    C1_result_satisfies_all_predicates exampleDf exampleCriteria adelieBiscoe
      (by decide)⟩

theorem C3_missing_mass_excluded_witness :
    missingMassRec.body_mass_g = none ∧
      missingMassRec ∉ filtered_data [missingMassRec] exampleCriteria :=
  ⟨rfl, C3_missing_mass_excluded [missingMassRec] exampleCriteria
    missingMassRec rfl⟩

theorem C4_empty_subset_gives_empty_result_witness :
    emptySpeciesCriteria.selected_species_list = [] ∧
      filtered_data exampleDf emptySpeciesCriteria = [] :=
  ⟨rfl, C4_empty_subset_gives_empty_result exampleDf emptySpeciesCriteria
    (Or.inl rfl)⟩

theorem C5_no_match_gives_empty_value_witness :
    (∀ r ∈ exampleDf, ¬(speciesMask noMatchCriteria r = true ∧
        islandMask noMatchCriteria r = true ∧
        massGeMask noMatchCriteria.mass_min r = true ∧
        massLeMask noMatchCriteria.mass_max r = true)) ∧
      filtered_data exampleDf noMatchCriteria = [] :=
  ⟨by decide, C5_no_match_gives_empty_value exampleDf noMatchCriteria
    (by decide)⟩

theorem C9_inverted_range_gives_empty_witness :
    invertedCriteria.mass_max < invertedCriteria.mass_min ∧
      filtered_data exampleDf invertedCriteria = [] :=
  ⟨by decide, C9_inverted_range_gives_empty exampleDf invertedCriteria
    (by decide)⟩

theorem C10_monotone_in_criteria_witness :
    narrowCriteria.selected_species_list ⊆
        exampleCriteria.selected_species_list ∧
      narrowCriteria.selected_island_list ⊆
        exampleCriteria.selected_island_list ∧
      exampleCriteria.mass_min ≤ narrowCriteria.mass_min ∧
      narrowCriteria.mass_max ≤ exampleCriteria.mass_max ∧
      (filtered_data exampleDf narrowCriteria).Sublist
        (filtered_data exampleDf exampleCriteria) :=
  ⟨by decide, by decide, by decide, by decide,
    C10_monotone_in_criteria exampleDf narrowCriteria exampleCriteria
      (by decide) (by decide) (by decide) (by decide)⟩

end App
